import Mathlib

/-!
Shallow embedding of the web-time-tracker core: the storage aggregation layer
(`src/background/models/StorageManager.ts`) and the session engine
(`src/background/services/TimeTracker.ts`).

Modelling conventions:
* Timestamps (`performance.now()` / `Date.now()` values) are `Int`; tab and
  window ids are `ℚ` so that the JavaScript `Number.isInteger` check is
  representable (a non-integer id has denominator ≠ 1).
* The raw `browser.storage.local` backend is a record `StorageState` holding
  the five root keys; a key that was never written is `none`.  The
  `activeSession` key stores `ActiveSession | null`; key-absent and stored
  `null` are observationally identical through `getActiveSession`'s
  `|| null` normalisation, so both are modelled as `none`.
* Every raw storage access (one `storage.get` or `storage.set` call) consumes
  one index of a failure schedule `Sched : Nat → Bool` (`true` = that access
  throws) and increments an access counter, so "no storage access attempted"
  is the counter staying put.
* JavaScript truthiness of numbers matters: `x || d` and `!x` treat a stored
  `0` like an absent value; `jsOrNat` / `jsOrInt` / `jsAbsentNat` /
  `jsAbsentInt` mirror this exactly.
* Errors are thrown `Error(msg)` values: `Err.mk msg` is `new Error(msg)` and
  `Err.wrap msg e` is the re-throw pattern `new Error(msg + ": " + e)`;
  `Err.raw` is an error coming out of the raw backend.
-/

/-- A completed session record (`Session` in `types/index.ts`). -/
structure Session where
  startTime : Int
  endTime : Int
  duration : Int
  tabId : ℚ
  windowId : ℚ
deriving DecidableEq

/-- The single in-progress session (`ActiveSession` in `types/index.ts`). -/
structure ActiveSession where
  domain : String
  startTime : Int
  tabId : ℚ
  windowId : ℚ
  isPaused : Bool
deriving DecidableEq

/-- Per-domain aggregate (`DomainData` in `types/index.ts`); `dailyStats` is
the JS object mapping ISO date strings to milliseconds, modelled as an
association list in insertion order. -/
structure DomainData where
  totalTime : Int
  sessions : List Session
  dailyStats : List (String × Int)
  lastAccessed : Int
deriving DecidableEq

/-- Pill position enum from `ExtensionSettings`. -/
inductive PillPosition where
  | topLeft
  | topRight
  | bottomLeft
  | bottomRight
deriving DecidableEq

/-- Extension settings (`ExtensionSettings` in `types/index.ts`). -/
structure ExtensionSettings where
  pillPosition : PillPosition
  pillVisibility : Bool
  dataRetentionDays : Int
  excludedDomains : List String
deriving DecidableEq

/-- Raw content of `browser.storage.local`: the five root keys of
`StorageSchema`, each possibly absent. -/
structure StorageState where
  domains : Option (List (String × DomainData))
  activeSession : Option ActiveSession
  settings : Option ExtensionSettings
  version : Option Nat
  installDate : Option Int
deriving DecidableEq

/-- The fully-defaulted schema returned by `StorageManager.getAll`. -/
structure StorageSchema where
  domains : List (String × DomainData)
  activeSession : Option ActiveSession
  settings : ExtensionSettings
  version : Nat
  installDate : Int
deriving DecidableEq

/-- Thrown JavaScript errors: `Err.mk m` is `new Error(m)`; `Err.wrap m e`
is a catch-and-rethrow `new Error(m + ": " + e)`; `Err.raw` is a failure of
the raw storage backend itself. -/
inductive Err where
  | raw : Err
  | mk (msg : String) : Err
  | wrap (msg : String) (cause : Err) : Err
deriving DecidableEq

/-- Failure schedule for raw storage accesses: `sched k = true` means the
k-th raw `storage.get`/`storage.set` call throws. -/
abbrev Sched := Nat → Bool

/-- The schedule on which no raw storage access fails. -/
def noFail : Sched := fun _ => false

/-- JS object lookup `l[key]` on an association list. -/
def lookupKey {α : Type} : List (String × α) → String → Option α
  | [], _ => none
  | (k, v) :: t, key => if k = key then some v else lookupKey t key

/-- JS object spread-with-computed-key `{...l, [key]: v}`: replaces the value
in place when the key exists, appends otherwise. -/
def setKey {α : Type} : List (String × α) → String → α → List (String × α)
  | [], key, v => [(key, v)]
  | (k, w) :: t, key, v =>
      if k = key then (k, v) :: t else (k, w) :: setKey t key v

/-- JS `x || d` for a possibly-absent number: `0` is falsy. -/
def jsOrNat (v : Option Nat) (d : Nat) : Nat :=
  match v with
  | some n => if n = 0 then d else n
  | none => d

/-- JS `x || d` for a possibly-absent numeric timestamp: `0` is falsy. -/
def jsOrInt (v : Option Int) (d : Int) : Int :=
  match v with
  | some n => if n = 0 then d else n
  | none => d

/-- JS `!x` for a possibly-absent number: absent and `0` are both falsy. -/
def jsAbsentNat (v : Option Nat) : Bool :=
  match v with
  | some n => n = 0
  | none => true

/-- JS `!x` for a possibly-absent numeric timestamp. -/
def jsAbsentInt (v : Option Int) : Bool :=
  match v with
  | some n => n = 0
  | none => true

/-- A partial `StorageSchema` as passed to `StorageManager.set`: the outer
`Option` marks whether the key occurs in the update object at all.  For
`activeSession` the inner value may itself be null. -/
structure SchemaPatch where
  domains : Option (List (String × DomainData))
  activeSession : Option (Option ActiveSession)
  settings : Option ExtensionSettings
  version : Option Nat
  installDate : Option Int
deriving DecidableEq

/-- The empty update object `{}`. -/
def SchemaPatch.empty : SchemaPatch :=
  ⟨none, none, none, none, none⟩

/-- Effect of `storage.set(items)` on the raw store: each key present in the
update object is overwritten, the rest are untouched. -/
def applyPatch (s : StorageState) (p : SchemaPatch) : StorageState where
  domains := match p.domains with | some d => some d | none => s.domains
  activeSession := match p.activeSession with | some a => a | none => s.activeSession
  settings := match p.settings with | some st => some st | none => s.settings
  version := match p.version with | some v => some v | none => s.version
  installDate := match p.installDate with | some i => some i | none => s.installDate

/-- `StorageManager.createEmptyDomainData`, stamped with `Date.now()`. -/
def createEmptyDomainData (wallNow : Int) : DomainData :=
  ⟨0, [], [], wallNow⟩

/-- `StorageManager.getDefaultSettings`. -/
def getDefaultSettings : ExtensionSettings :=
  ⟨PillPosition.topRight, true, 30, []⟩

/-- `StorageManager.get`: one raw read; a backend failure is wrapped as
"Failed to get storage data".  The model returns the whole raw state and
callers project the keys they asked for. -/
def StorageManager.get (sched : Sched) (s : StorageState) (k : Nat) :
    Except Err StorageState × Nat :=
  if sched k then (.error (.wrap "Failed to get storage data" .raw), k + 1)
  else (.ok s, k + 1)

/-- `StorageManager.set`: one raw write; a backend failure is wrapped as
"Failed to set storage data" and leaves the store unchanged. -/
def StorageManager.set (sched : Sched) (s : StorageState) (k : Nat)
    (items : SchemaPatch) : Except Err Unit × StorageState × Nat :=
  if sched k then (.error (.wrap "Failed to set storage data" .raw), s, k + 1)
  else (.ok (), applyPatch s items, k + 1)

/-- `StorageManager.getAll`: one read of all five root keys, then default
backfill (`|| {}`, `|| null`, `|| defaults`, `|| 1`, `|| Date.now()`);
a read failure is re-wrapped as "Failed to get all storage data". -/
def StorageManager.getAll (sched : Sched) (s : StorageState) (k : Nat)
    (wallNow : Int) : Except Err StorageSchema × Nat :=
  match StorageManager.get sched s k with
  | (.error e, k') => (.error (.wrap "Failed to get all storage data" e), k')
  | (.ok data, k') =>
      (.ok { domains := data.domains.getD []
             activeSession := data.activeSession
             settings := data.settings.getD getDefaultSettings
             version := jsOrNat data.version 1
             installDate := jsOrInt data.installDate wallNow }, k')

/-- `StorageManager.initializeStorage`: read `version`/`installDate`/`settings`,
collect the JS-falsy ones into an update object, and write that object only
if it is non-empty.  Failures are wrapped as "Failed to initialize storage". -/
def StorageManager.initializeStorage (sched : Sched) (s : StorageState) (k : Nat)
    (wallNow : Int) : Except Err Unit × StorageState × Nat :=
  match StorageManager.get sched s k with
  | (.error e, k') => (.error (.wrap "Failed to initialize storage" e), s, k')
  | (.ok existing, k') =>
      let updates : SchemaPatch :=
        { domains := none
          activeSession := none
          settings := match existing.settings with
            | none => some getDefaultSettings
            | some _ => none
          version := if jsAbsentNat existing.version then some 1 else none
          installDate := if jsAbsentInt existing.installDate then some wallNow else none }
      if updates.settings.isNone && updates.version.isNone && updates.installDate.isNone then
        (.ok (), s, k')
      else
        match StorageManager.set sched s k' updates with
        | (.error e, s2, k2) => (.error (.wrap "Failed to initialize storage" e), s2, k2)
        | (.ok _, s2, k2) => (.ok (), s2, k2)

/-- `StorageManager.getDomainData`: best-effort read; on failure or a missing
record it returns `createEmptyDomainData` and never throws. -/
def StorageManager.getDomainData (sched : Sched) (s : StorageState) (k : Nat)
    (wallNow : Int) (domain : String) : DomainData × Nat :=
  match StorageManager.get sched s k with
  | (.error _, k') => (createEmptyDomainData wallNow, k')
  | (.ok data, k') =>
      ((lookupKey (data.domains.getD []) domain).getD (createEmptyDomainData wallNow), k')

/-- A partial `DomainData` update object. -/
structure DomainDataPatch where
  totalTime : Option Int
  sessions : Option (List Session)
  dailyStats : Option (List (String × Int))
  lastAccessed : Option Int
deriving DecidableEq

/-- The spread `{...current, ...updates, lastAccessed: Date.now()}`. -/
def mergeDomainData (current : DomainData) (updates : DomainDataPatch)
    (wallNow : Int) : DomainData where
  totalTime := updates.totalTime.getD current.totalTime
  sessions := updates.sessions.getD current.sessions
  dailyStats := updates.dailyStats.getD current.dailyStats
  lastAccessed := wallNow

/-- `StorageManager.updateDomainData`: read the whole domains map, merge the
update over the domain's record (or an empty one), stamp `lastAccessed`, and
write the whole map back; failures are wrapped as
"Failed to update domain data for (domain)". -/
def StorageManager.updateDomainData (sched : Sched) (s : StorageState) (k : Nat)
    (wallNow : Int) (domain : String) (updates : DomainDataPatch) :
    Except Err Unit × StorageState × Nat :=
  match StorageManager.get sched s k with
  | (.error e, k') =>
      (.error (.wrap ("Failed to update domain data for " ++ domain) e), s, k')
  | (.ok data, k') =>
      let currentDomains := data.domains.getD []
      let currentDomainData :=
        (lookupKey currentDomains domain).getD (createEmptyDomainData wallNow)
      let updatedDomainData := mergeDomainData currentDomainData updates wallNow
      match StorageManager.set sched s k'
          { SchemaPatch.empty with
            domains := some (setKey currentDomains domain updatedDomainData) } with
      | (.error e, s2, k2) =>
          (.error (.wrap ("Failed to update domain data for " ++ domain) e), s2, k2)
      | (.ok _, s2, k2) => (.ok (), s2, k2)

/-- `StorageManager.getActiveSession`: best-effort read of the single slot;
any failure is absorbed and `null` is returned.  Never mutates the store. -/
def StorageManager.getActiveSession (sched : Sched) (s : StorageState) (k : Nat) :
    Option ActiveSession × Nat :=
  match StorageManager.get sched s k with
  | (.error _, k') => (none, k')
  | (.ok data, k') => (data.activeSession, k')

/-- `StorageManager.setActiveSession`: one write of the slot; a failure is
wrapped as "Failed to set active session". -/
def StorageManager.setActiveSession (sched : Sched) (s : StorageState) (k : Nat)
    (v : Option ActiveSession) : Except Err Unit × StorageState × Nat :=
  match StorageManager.set sched s k { SchemaPatch.empty with activeSession := some v } with
  | (.error e, s2, k2) => (.error (.wrap "Failed to set active session" e), s2, k2)
  | (.ok _, s2, k2) => (.ok (), s2, k2)

/-- Prepend a character to the first component of a split result
(the component currently being accumulated). -/
def consHead (c : Char) : List (List Char) → List (List Char)
  | [] => [[c]]
  | l :: ls => (c :: l) :: ls

/-- JavaScript `s.split(sep)` for a non-empty separator, on character lists:
scan left to right, cutting at each non-overlapping occurrence of `sep`. -/
def jsSplit (sep : List Char) : List Char → List (List Char)
  | [] => [[]]
  | c :: rest =>
      if sep.isPrefixOf (c :: rest) then
        [] :: jsSplit sep (rest.drop (sep.length - 1))
      else consHead c (jsSplit sep rest)
termination_by s => s.length
decreasing_by
  · simp only [List.length_cons]
    have h := List.length_drop (sep.length - 1) rest
    omega
  · simp [List.length_cons, Nat.lt_succ_self]

/-- `TimeTracker.extractDomain`.  The platform's `new URL(url).hostname` is
the parameter `parseHost` (`none` models the constructor throwing); the
pseudo-URL branch splits on "://" and returns the first component when a
separator occurs, `"unknown"` otherwise.  `startsWith` is modelled as a
character-list prefix test. -/
def TimeTracker.extractDomain (parseHost : String → Option String) (url : String) :
    String :=
  if url = "" then "unknown"
  else if List.isPrefixOf "chrome://".data url.data
      || List.isPrefixOf "moz-extension://".data url.data
      || List.isPrefixOf "about:".data url.data then
    let parts := jsSplit "://".data url.data
    if parts.length > 1 then String.mk (parts.headD []) else "unknown"
  else
    match parseHost url with
    | none => "unknown"
    | some hostname => if hostname = "" then "unknown" else hostname

/-- `TimeTracker.calculateDuration`: `end` defaults to `performance.now()`
(the parameter `now`); the result is clamped to be non-negative. -/
def TimeTracker.calculateDuration (startTime : Int) (endTime : Option Int)
    (now : Int) : Int :=
  let e := endTime.getD now
  max 0 (e - startTime)

/-- `TimeTracker.getSessionDuration`: elapsed time of an active session
against the current clock. -/
def TimeTracker.getSessionDuration (session : ActiveSession) (now : Int) : Int :=
  TimeTracker.calculateDuration session.startTime none now

/-- JavaScript `String.prototype.trim`: strip whitespace from both ends. -/
def jsTrim (s : String) : String :=
  ⟨((s.data.dropWhile Char.isWhitespace).reverse.dropWhile Char.isWhitespace).reverse⟩

/-- JS `Number.isInteger` on a number modelled as a rational. -/
def isIntegerNum (q : ℚ) : Prop := q.den = 1

instance (q : ℚ) : Decidable (isIntegerNum q) := by
  unfold isIntegerNum
  infer_instance

/-- `TimeTracker.startSession`: validate inputs, check the active-session
slot, then construct and persist the new session (`startTime` =
`performance.now()`, `isPaused` = false).  Every thrown error is re-wrapped
by the outer catch as "Failed to start session". -/
def TimeTracker.startSession (sched : Sched) (s : StorageState) (k : Nat)
    (domain : String) (tabId windowId : ℚ) (now : Int) :
    Except Err ActiveSession × StorageState × Nat :=
  if domain = "" ∨ jsTrim domain = "" then
    (.error (.wrap "Failed to start session" (.mk "Domain cannot be empty")), s, k)
  else if ¬ isIntegerNum tabId ∨ tabId < 0 then
    (.error (.wrap "Failed to start session" (.mk "TabId must be a positive number")), s, k)
  else if ¬ isIntegerNum windowId ∨ windowId < 0 then
    (.error (.wrap "Failed to start session" (.mk "WindowId must be a positive number")), s, k)
  else
    match StorageManager.getActiveSession sched s k with
    | (some _, k') =>
        (.error (.wrap "Failed to start session"
          (.mk "Cannot start session: another session is already active")), s, k')
    | (none, k') =>
        let session : ActiveSession :=
          { domain := jsTrim domain, tabId := tabId, windowId := windowId
            startTime := now, isPaused := false }
        match StorageManager.setActiveSession sched s k' (some session) with
        | (.error e, s2, k2) => (.error (.wrap "Failed to start session" e), s2, k2)
        | (.ok _, s2, k2) => (.ok session, s2, k2)

/-- `TimeTracker.updateDomainData` (private helper of `stopSession`): fold a
completed session into the domain's aggregate.  `today` is the ISO date
string the platform's `Date` renders for `Date.now()` at stop time.  Its
catch block rethrows the caught error unchanged. -/
def TimeTracker.updateDomainData (sched : Sched) (s : StorageState) (k : Nat)
    (wallNow : Int) (today : String) (domain : String) (session : Session) :
    Except Err Unit × StorageState × Nat :=
  let r := StorageManager.getDomainData sched s k wallNow domain
  let domainData := r.1
  let existingDailyTime := (lookupKey domainData.dailyStats today).getD 0
  let updatedData : DomainDataPatch :=
    { totalTime := some (domainData.totalTime + session.duration)
      sessions := some (domainData.sessions ++ [session])
      dailyStats := some (setKey domainData.dailyStats today
        (existingDailyTime + session.duration))
      lastAccessed := some wallNow }
  StorageManager.updateDomainData sched s r.2 wallNow domain updatedData

/-- `TimeTracker.stopSession`: read the slot (absorbed failure = no session =
no-op returning null), build the completed `Session`, fold it into the
domain's data, clear the slot, and return it.  Thrown errors are re-wrapped
as "Failed to stop session". -/
def TimeTracker.stopSession (sched : Sched) (s : StorageState) (k : Nat)
    (now wallNow : Int) (today : String) :
    Except Err (Option Session) × StorageState × Nat :=
  match StorageManager.getActiveSession sched s k with
  | (none, k') => (.ok none, s, k')
  | (some activeSession, k') =>
      let endTime := now
      let duration := TimeTracker.calculateDuration activeSession.startTime (some endTime) now
      let completedSession : Session :=
        { startTime := activeSession.startTime, endTime := endTime, duration := duration
          tabId := activeSession.tabId, windowId := activeSession.windowId }
      match TimeTracker.updateDomainData sched s k' wallNow today
          activeSession.domain completedSession with
      | (.error e, s2, k2) => (.error (.wrap "Failed to stop session" e), s2, k2)
      | (.ok _, s2, k2) =>
          match StorageManager.setActiveSession sched s2 k2 none with
          | (.error e, s3, k3) => (.error (.wrap "Failed to stop session" e), s3, k3)
          | (.ok _, s3, k3) => (.ok (some completedSession), s3, k3)

/-- `TimeTracker.pauseSession`: toggle `isPaused` to true in place; no-op
returning null when no session is active. -/
def TimeTracker.pauseSession (sched : Sched) (s : StorageState) (k : Nat) :
    Except Err (Option ActiveSession) × StorageState × Nat :=
  match StorageManager.getActiveSession sched s k with
  | (none, k') => (.ok none, s, k')
  | (some activeSession, k') =>
      let pausedSession := { activeSession with isPaused := true }
      match StorageManager.setActiveSession sched s k' (some pausedSession) with
      | (.error e, s2, k2) => (.error (.wrap "Failed to pause session" e), s2, k2)
      | (.ok _, s2, k2) => (.ok (some pausedSession), s2, k2)

/-- `TimeTracker.resumeSession`: toggle `isPaused` back to false. -/
def TimeTracker.resumeSession (sched : Sched) (s : StorageState) (k : Nat) :
    Except Err (Option ActiveSession) × StorageState × Nat :=
  match StorageManager.getActiveSession sched s k with
  | (none, k') => (.ok none, s, k')
  | (some activeSession, k') =>
      let resumedSession := { activeSession with isPaused := false }
      match StorageManager.setActiveSession sched s k' (some resumedSession) with
      | (.error e, s2, k2) => (.error (.wrap "Failed to resume session" e), s2, k2)
      | (.ok _, s2, k2) => (.ok (some resumedSession), s2, k2)

/-- One session-engine call together with the clock values it observes. -/
inductive TrackerOp where
  | start (domain : String) (tabId windowId : ℚ) (now : Int)
  | stop (now wallNow : Int) (today : String)
  | pause
  | resume

/-- Run one engine call, keeping only the store and the access counter. -/
def runOp (sched : Sched) (op : TrackerOp) (s : StorageState) (k : Nat) :
    StorageState × Nat :=
  match op with
  | .start d t w now => (TimeTracker.startSession sched s k d t w now).2
  | .stop now wallNow today => (TimeTracker.stopSession sched s k now wallNow today).2
  | .pause => (TimeTracker.pauseSession sched s k).2
  | .resume => (TimeTracker.resumeSession sched s k).2

/-- Run a whole sequence of engine calls. -/
def runOps (sched : Sched) (ops : List TrackerOp) (s : StorageState) (k : Nat) :
    StorageState × Nat :=
  match ops with
  | [] => (s, k)
  | op :: rest =>
      let r := runOp sched op s k
      runOps sched rest r.1 r.2

/-- Number of active sessions persisted in the raw store. -/
def activeSessionCount (s : StorageState) : Nat :=
  match s.activeSession with
  | some _ => 1
  | none => 0

/-- Domains map as read back through the defaulting accessors. -/
def storedDomains (s : StorageState) : List (String × DomainData) :=
  s.domains.getD []

/-- The record `getDomainData` would return for `d` under a successful read:
the stored record or a fresh empty one. -/
def priorDomainData (s : StorageState) (wallNow : Int) (d : String) : DomainData :=
  (lookupKey (storedDomains s) d).getD (createEmptyDomainData wallNow)

/-! Helper lemmas about the association-list operations. -/

lemma lookupKey_setKey_self {α : Type} (l : List (String × α)) (key : String)
    (v : α) : lookupKey (setKey l key v) key = some v := by
  induction l with
  | nil => simp [setKey, lookupKey]
  | cons p t ih =>
      obtain ⟨k, w⟩ := p
      by_cases h : k = key
      · simp [setKey, lookupKey, h]
      · simp [setKey, lookupKey, h, ih]

lemma lookupKey_setKey_ne {α : Type} (l : List (String × α)) (key key' : String)
    (v : α) (h : key' ≠ key) :
    lookupKey (setKey l key v) key' = lookupKey l key' := by
  have h' : key ≠ key' := fun hh => h hh.symm
  induction l with
  | nil => simp [setKey, lookupKey, h']
  | cons p t ih =>
      obtain ⟨k, w⟩ := p
      by_cases hk : k = key
      · subst hk
        simp [setKey, lookupKey, h']
      · simp [setKey, lookupKey, hk, ih]

lemma activeSessionCount_le_one (s : StorageState) : activeSessionCount s ≤ 1 := by
  unfold activeSessionCount
  cases s.activeSession <;> simp

/-- C8: `getSessionDuration` is independent of the pause flag — two active
sessions that agree on everything but `isPaused`, queried at the same clock
value, report the same elapsed time, namely the clamped distance from
`startTime` to now. -/
theorem getSessionDuration_ignores_pause (domain : String) (startTime : Int)
    (tabId windowId : ℚ) (p₁ p₂ : Bool) (now : Int) :
    TimeTracker.getSessionDuration ⟨domain, startTime, tabId, windowId, p₁⟩ now =
      TimeTracker.getSessionDuration ⟨domain, startTime, tabId, windowId, p₂⟩ now ∧
    TimeTracker.getSessionDuration ⟨domain, startTime, tabId, windowId, p₁⟩ now =
      max 0 (now - startTime) :=
  ⟨rfl, rfl⟩

/-- C9: `StorageManager.updateDomainData` on domain `d` leaves every other
domain's stored record untouched, on every failure schedule. -/
theorem updateDomainData_preserves_other_domains (sched : Sched) (s : StorageState)
    (k : Nat) (wallNow : Int) (d d' : String) (patch : DomainDataPatch)
    (h : d' ≠ d) :
    lookupKey (storedDomains
        (StorageManager.updateDomainData sched s k wallNow d patch).2.1) d' =
      lookupKey (storedDomains s) d' := by
  unfold StorageManager.updateDomainData StorageManager.get StorageManager.set
  by_cases h0 : sched k
  · simp [h0]
  · by_cases h1 : sched (k + 1) <;>
      simp [h0, h1, storedDomains, applyPatch, lookupKey_setKey_ne _ _ _ _ h]

/-- Closed witness for the C9 frame property at a concrete store. -/
theorem updateDomainData_preserves_other_domains_w :
    lookupKey (storedDomains
        (StorageManager.updateDomainData noFail
          ⟨some [("kept.example", ⟨7, [], [], 3⟩)], none, none, none, none⟩ 0 50
          "updated.example" ⟨some 9, none, none, none⟩).2.1) "kept.example" =
      lookupKey (storedDomains
        (⟨some [("kept.example", ⟨7, [], [], 3⟩)], none, none, none, none⟩ :
          StorageState)) "kept.example" :=
  updateDomainData_preserves_other_domains noFail
    ⟨some [("kept.example", ⟨7, [], [], 3⟩)], none, none, none, none⟩ 0 50
    "updated.example" "kept.example" ⟨some 9, none, none, none⟩ (by decide)

/-- C4: `startSession` rejects a blank (after trimming) domain with
"Domain cannot be empty", a negative or non-integer tabId with
"TabId must be a positive number", and likewise for windowId — each time
returning with the store untouched and the raw-access counter unchanged,
i.e. before any storage access is attempted. -/
theorem startSession_validation_errors (sched : Sched) (s : StorageState) (k : Nat)
    (domain : String) (tabId windowId : ℚ) (now : Int) :
    (jsTrim domain = "" →
      TimeTracker.startSession sched s k domain tabId windowId now =
        (.error (.wrap "Failed to start session" (.mk "Domain cannot be empty")),
          s, k)) ∧
    (jsTrim domain ≠ "" → (¬ isIntegerNum tabId ∨ tabId < 0) →
      TimeTracker.startSession sched s k domain tabId windowId now =
        (.error (.wrap "Failed to start session"
          (.mk "TabId must be a positive number")), s, k)) ∧
    (jsTrim domain ≠ "" → isIntegerNum tabId → 0 ≤ tabId →
      (¬ isIntegerNum windowId ∨ windowId < 0) →
      TimeTracker.startSession sched s k domain tabId windowId now =
        (.error (.wrap "Failed to start session"
          (.mk "WindowId must be a positive number")), s, k)) := by
  refine ⟨fun h1 => ?_, fun h1 h2 => ?_, fun h1 h2 h3 h4 => ?_⟩
  · unfold TimeTracker.startSession
    rw [if_pos (Or.inr h1)]
  · have hne : ¬ (domain = "" ∨ jsTrim domain = "") := by
      rintro (rfl | h) <;> exact h1 (by first | rfl | assumption)
    unfold TimeTracker.startSession
    rw [if_neg hne, if_pos h2]
  · have hne : ¬ (domain = "" ∨ jsTrim domain = "") := by
      rintro (rfl | h) <;> exact h1 (by first | rfl | assumption)
    have ht : ¬ (¬ isIntegerNum tabId ∨ tabId < 0) := by
      rintro (h | h)
      · exact h h2
      · exact absurd h3 (not_le.mpr h)
    unfold TimeTracker.startSession
    rw [if_neg hne, if_neg ht, if_pos h4]

/-- Closed witness for C4: the three validation failures at concrete inputs. -/
theorem startSession_validation_errors_w :
    TimeTracker.startSession noFail ⟨none, none, none, none, none⟩ 0 "   " 1 1 5 =
      (.error (.wrap "Failed to start session" (.mk "Domain cannot be empty")),
        ⟨none, none, none, none, none⟩, 0) ∧
    TimeTracker.startSession noFail ⟨none, none, none, none, none⟩ 0
        "example.com" (-1) 1 5 =
      (.error (.wrap "Failed to start session"
        (.mk "TabId must be a positive number")), ⟨none, none, none, none, none⟩, 0) ∧
    TimeTracker.startSession noFail ⟨none, none, none, none, none⟩ 0
        "example.com" 1 (-2) 5 =
      (.error (.wrap "Failed to start session"
        (.mk "WindowId must be a positive number")), ⟨none, none, none, none, none⟩, 0) :=
  ⟨(startSession_validation_errors noFail ⟨none, none, none, none, none⟩ 0
      "   " 1 1 5).1 (by decide),
   (startSession_validation_errors noFail ⟨none, none, none, none, none⟩ 0
      "example.com" (-1) 1 5).2.1 (by decide) (Or.inr (by decide)),
   (startSession_validation_errors noFail ⟨none, none, none, none, none⟩ 0
      "example.com" 1 (-2) 5).2.2 (by decide) (by decide) (by decide)
      (Or.inr (by decide))⟩

/-- C1: after any sequence of start/stop/pause/resume calls, under any
failure schedule, the store holds at most one active session (the schema has
a single slot, and every operation writes at most that slot); and every
successful `startSession` leaves the slot holding exactly the returned
session, whose `isPaused` flag is false. -/
theorem at_most_one_active_session (sched : Sched) (ops : List TrackerOp)
    (s : StorageState) (k : Nat) :
    activeSessionCount (runOps sched ops s k).1 ≤ 1 ∧
    (∀ (sched' : Sched) (s' : StorageState) (k' : Nat) (d : String) (t w : ℚ)
      (now : Int) (a : ActiveSession) (s2 : StorageState) (k2 : Nat),
      TimeTracker.startSession sched' s' k' d t w now = (.ok a, s2, k2) →
      s2.activeSession = some a ∧ a.isPaused = false) := by
  constructor
  · exact activeSessionCount_le_one _
  · intro sched' s' k' d t w now a s2 k2 h
    unfold TimeTracker.startSession StorageManager.getActiveSession
      StorageManager.setActiveSession StorageManager.get StorageManager.set at h
    split at h
    · simp at h
    · split at h
      · simp at h
      · split at h
        · simp at h
        · split at h
          · simp_all
          · split at h
            · simp_all
            · simp only [Prod.mk.injEq, Except.ok.injEq] at h
              obtain ⟨h1, h2, h3⟩ := h
              subst h1
              subst h2
              exact ⟨by simp [applyPatch, SchemaPatch.empty], rfl⟩

/-- Closed witness for C1: a concrete one-start run keeps the count at one,
and that concrete successful start persists an unpaused session. -/
theorem at_most_one_active_session_w :
    activeSessionCount (runOps noFail [TrackerOp.start "example.com" 1 1 1000]
      ⟨none, none, none, none, none⟩ 0).1 ≤ 1 ∧
    ((⟨none, some ⟨"example.com", 1000, 1, 1, false⟩, none, none, none⟩ :
        StorageState).activeSession = some ⟨"example.com", 1000, 1, 1, false⟩ ∧
      (⟨"example.com", 1000, 1, 1, false⟩ : ActiveSession).isPaused = false) :=
  ⟨(at_most_one_active_session noFail [TrackerOp.start "example.com" 1 1 1000]
      ⟨none, none, none, none, none⟩ 0).1,
   (at_most_one_active_session noFail [] ⟨none, none, none, none, none⟩ 0).2
     noFail ⟨none, none, none, none, none⟩ 0 "example.com" 1 1 1000
     ⟨"example.com", 1000, 1, 1, false⟩
     ⟨none, some ⟨"example.com", 1000, 1, 1, false⟩, none, none, none⟩ 2 (by rfl)⟩

/-- Schedule on which only the very first raw storage access fails. -/
def firstAccessFails : Sched := fun k => k == 0

/-- C3 counterexample: with an active session persisted but the underlying
read of the slot failing (`getActiveSession` absorbs the error and reports
`null`), `startSession` succeeds and overwrites the existing session instead
of failing with a conflict error. -/
theorem startSession_overwrites_on_read_failure :
    (TimeTracker.startSession firstAccessFails
        ⟨none, some ⟨"old.example", 100, 1, 1, false⟩, none, none, none⟩ 0
        "new.example" 2 3 500).1 = .ok ⟨"new.example", 500, 2, 3, false⟩ ∧
    (TimeTracker.startSession firstAccessFails
        ⟨none, some ⟨"old.example", 100, 1, 1, false⟩, none, none, none⟩ 0
        "new.example" 2 3 500).2.1.activeSession =
      some ⟨"new.example", 500, 2, 3, false⟩ ∧
    (⟨"new.example", 500, 2, 3, false⟩ : ActiveSession) ≠
      ⟨"old.example", 100, 1, 1, false⟩ :=
  ⟨by rfl, by rfl, by decide⟩

/-- C3 (amended): for a `startSession` call whose arguments pass validation,
made while an active session is persisted, and whose underlying read of the
active-session slot succeeds, the call fails with the conflict error, writes
nothing, and leaves the persisted active session unchanged. -/
theorem startSession_conflict (sched : Sched) (s : StorageState) (k : Nat)
    (d : String) (t w : ℚ) (now : Int) (a : ActiveSession)
    (ha : s.activeSession = some a) (hread : sched k = false)
    (hd : jsTrim d ≠ "") (ht : isIntegerNum t) (ht0 : 0 ≤ t)
    (hw : isIntegerNum w) (hw0 : 0 ≤ w) :
    TimeTracker.startSession sched s k d t w now =
      (.error (.wrap "Failed to start session"
        (.mk "Cannot start session: another session is already active")), s, k + 1) := by
  have hne : ¬ (d = "" ∨ jsTrim d = "") := by
    rintro (rfl | h) <;> exact hd (by first | rfl | assumption)
  have htt : ¬ (¬ isIntegerNum t ∨ t < 0) := by
    rintro (h | h)
    · exact h ht
    · exact absurd ht0 (not_le.mpr h)
  have hww : ¬ (¬ isIntegerNum w ∨ w < 0) := by
    rintro (h | h)
    · exact h hw
    · exact absurd hw0 (not_le.mpr h)
  unfold TimeTracker.startSession StorageManager.getActiveSession StorageManager.get
  rw [if_neg hne, if_neg htt, if_neg hww]
  simp [hread, ha]

/-- Closed witness for the amended C3 at a concrete store. -/
theorem startSession_conflict_w :
    TimeTracker.startSession noFail
        ⟨none, some ⟨"old.example", 100, 1, 1, false⟩, none, none, none⟩ 0
        "new.example" 2 3 500 =
      (.error (.wrap "Failed to start session"
        (.mk "Cannot start session: another session is already active")),
        ⟨none, some ⟨"old.example", 100, 1, 1, false⟩, none, none, none⟩, 1) :=
  startSession_conflict noFail
    ⟨none, some ⟨"old.example", 100, 1, 1, false⟩, none, none, none⟩ 0
    "new.example" 2 3 500 ⟨"old.example", 100, 1, 1, false⟩
    (by rfl) (by rfl) (by decide) (by decide) (by decide) (by decide) (by decide)

/-- C5: when the single underlying read succeeds, `getAll` returns a complete
schema in which every missing root key is backfilled with its documented
default (empty domains map, null active session, default settings, version 1,
install date = now); and `getAll` can only fail because the read itself
failed — the default-filling construction is total and never fails. -/
theorem getAll_backfills_defaults (sched : Sched) (s : StorageState) (k : Nat)
    (wallNow : Int) :
    (sched k = false →
      ∃ schema : StorageSchema,
        (StorageManager.getAll sched s k wallNow).1 = .ok schema ∧
        (s.domains = none → schema.domains = []) ∧
        (s.activeSession = none → schema.activeSession = none) ∧
        (s.settings = none → schema.settings = getDefaultSettings) ∧
        (s.version = none → schema.version = 1) ∧
        (s.installDate = none → schema.installDate = wallNow)) ∧
    ((∃ e, (StorageManager.getAll sched s k wallNow).1 = .error e) →
      sched k = true) := by
  constructor
  · intro hread
    refine ⟨⟨s.domains.getD [], s.activeSession, s.settings.getD getDefaultSettings,
      jsOrNat s.version 1, jsOrInt s.installDate wallNow⟩, ?_, ?_, ?_, ?_, ?_, ?_⟩
    · unfold StorageManager.getAll StorageManager.get
      simp [hread]
    · intro h
      simp [h]
    · intro h
      exact h
    · intro h
      simp [h]
    · intro h
      simp [h, jsOrNat]
    · intro h
      simp [h, jsOrInt]
  · rintro ⟨e, he⟩
    by_cases hk : sched k
    · exact hk
    · unfold StorageManager.getAll StorageManager.get at he
      simp [hk] at he

/-- Closed witness for C5 on the empty store. -/
theorem getAll_backfills_defaults_w :
    ∃ schema : StorageSchema,
      (StorageManager.getAll noFail ⟨none, none, none, none, none⟩ 0 99).1 =
        .ok schema ∧
      ((⟨none, none, none, none, none⟩ : StorageState).domains = none →
        schema.domains = []) ∧
      ((⟨none, none, none, none, none⟩ : StorageState).activeSession = none →
        schema.activeSession = none) ∧
      ((⟨none, none, none, none, none⟩ : StorageState).settings = none →
        schema.settings = getDefaultSettings) ∧
      ((⟨none, none, none, none, none⟩ : StorageState).version = none →
        schema.version = 1) ∧
      ((⟨none, none, none, none, none⟩ : StorageState).installDate = none →
        schema.installDate = 99) :=
  (getAll_backfills_defaults noFail ⟨none, none, none, none, none⟩ 0 99).1 (by rfl)

/-- C7 counterexample: a store whose `version` key holds the JS-falsy number
0 is "existing" yet `initialize` overwrites it with 1, because the presence
check `!existing.version` treats 0 like an absent value. -/
theorem initialize_overwrites_zero_version :
    ((⟨none, none, some getDefaultSettings, some 0, some 5⟩ :
        StorageState).version = some 0) ∧
    (StorageManager.initializeStorage noFail
        ⟨none, none, some getDefaultSettings, some 0, some 5⟩ 0 100).2.1.version =
      some 1 ∧
    some (1 : Nat) ≠ some (0 : Nat) :=
  ⟨by rfl, by rfl, by decide⟩

/-- Value of the three bootstrap keys after a successful `initialize` with
wall clock `wall`: each key ends up as the JS-truthy version of what was
stored, falling back to the documented default. -/
lemma initialize_noFail_result (s : StorageState) (k : Nat) (wall : Int) :
    ((StorageManager.initializeStorage noFail s k wall).2.1).version =
        some (jsOrNat s.version 1) ∧
      ((StorageManager.initializeStorage noFail s k wall).2.1).installDate =
        some (jsOrInt s.installDate wall) ∧
      ((StorageManager.initializeStorage noFail s k wall).2.1).settings =
        some (s.settings.getD getDefaultSettings) := by
  obtain ⟨dom, act, sett, ver, inst⟩ := s
  unfold StorageManager.initializeStorage StorageManager.get StorageManager.set
  rcases ver with _ | v
  · rcases inst with _ | i
    · rcases sett with _ | st0 <;>
        simp [noFail, jsAbsentNat, jsAbsentInt, jsOrNat, jsOrInt, applyPatch]
    · by_cases hi : i = 0 <;> rcases sett with _ | st0 <;>
        simp [noFail, jsAbsentNat, jsAbsentInt, jsOrNat, jsOrInt, applyPatch, hi]
  · by_cases hv : v = 0
    · rcases inst with _ | i
      · rcases sett with _ | st0 <;>
          simp [noFail, jsAbsentNat, jsAbsentInt, jsOrNat, jsOrInt, applyPatch, hv]
      · by_cases hi : i = 0 <;> rcases sett with _ | st0 <;>
          simp [noFail, jsAbsentNat, jsAbsentInt, jsOrNat, jsOrInt, applyPatch, hv, hi]
    · rcases inst with _ | i
      · rcases sett with _ | st0 <;>
          simp [noFail, jsAbsentNat, jsAbsentInt, jsOrNat, jsOrInt, applyPatch, hv]
      · by_cases hi : i = 0 <;> rcases sett with _ | st0 <;>
          simp [noFail, jsAbsentNat, jsAbsentInt, jsOrNat, jsOrInt, applyPatch, hv, hi]

lemma jsOrNat_one_ne_zero (v : Option Nat) : jsOrNat v 1 ≠ 0 := by
  rcases v with _ | n
  · simp [jsOrNat]
  · by_cases h : n = 0 <;> simp [jsOrNat, h]

lemma jsOrInt_ne_zero (v : Option Int) (d : Int) (hd : d ≠ 0) :
    jsOrInt v d ≠ 0 := by
  rcases v with _ | n
  · simpa [jsOrInt]
  · by_cases h : n = 0
    · simp [jsOrInt, h, hd]
    · simp [jsOrInt, h]

lemma jsOrNat_some_ne (x d : Nat) (h : x ≠ 0) : jsOrNat (some x) d = x := by
  simp [jsOrNat, h]

lemma jsOrInt_some_ne (x d : Int) (h : x ≠ 0) : jsOrInt (some x) d = x := by
  simp [jsOrInt, h]

/-- C7 (amended): `initialize` writes only the keys among version,
installDate and settings that are currently absent or hold the JS-falsy
number 0 — an existing non-zero `version`, non-zero `installDate`, or
present `settings` object is never overwritten — and, provided the first
call's clock value is non-zero, calling `initialize` twice in a row leaves
`version`, `installDate` and `settings` unchanged after the second call. -/
theorem initialize_idempotent (s : StorageState) (k k2 : Nat) (wall1 wall2 : Int)
    (h1 : wall1 ≠ 0) :
    (∀ v : Nat, s.version = some v → v ≠ 0 →
      ((StorageManager.initializeStorage noFail s k wall1).2.1).version = some v) ∧
    (∀ i : Int, s.installDate = some i → i ≠ 0 →
      ((StorageManager.initializeStorage noFail s k wall1).2.1).installDate = some i) ∧
    (∀ st : ExtensionSettings, s.settings = some st →
      ((StorageManager.initializeStorage noFail s k wall1).2.1).settings = some st) ∧
    (((StorageManager.initializeStorage noFail
          (StorageManager.initializeStorage noFail s k wall1).2.1 k2 wall2).2.1).version =
        ((StorageManager.initializeStorage noFail s k wall1).2.1).version ∧
      ((StorageManager.initializeStorage noFail
          (StorageManager.initializeStorage noFail s k wall1).2.1 k2 wall2).2.1).installDate =
        ((StorageManager.initializeStorage noFail s k wall1).2.1).installDate ∧
      ((StorageManager.initializeStorage noFail
          (StorageManager.initializeStorage noFail s k wall1).2.1 k2 wall2).2.1).settings =
        ((StorageManager.initializeStorage noFail s k wall1).2.1).settings) := by
  obtain ⟨hV, hI, hS⟩ := initialize_noFail_result s k wall1
  obtain ⟨hV2, hI2, hS2⟩ :=
    initialize_noFail_result (StorageManager.initializeStorage noFail s k wall1).2.1 k2 wall2
  refine ⟨?_, ?_, ?_, ?_, ?_, ?_⟩
  · intro v hv hv0
    rw [hV, hv]
    simp [jsOrNat, hv0]
  · intro i hi hi0
    rw [hI, hi]
    simp [jsOrInt, hi0]
  · intro st hst
    rw [hS, hst]
    simp
  · rw [hV2, hV, jsOrNat_some_ne _ _ (jsOrNat_one_ne_zero s.version)]
  · rw [hI2, hI, jsOrInt_some_ne _ _ (jsOrInt_ne_zero s.installDate wall1 h1)]
  · rw [hS2, hS]
    simp

/-- Closed witness for the amended C7 at a concrete partially-populated
store. -/
theorem initialize_idempotent_w :
    ((StorageManager.initializeStorage noFail
        ⟨none, none, none, some 3, some 40⟩ 0 100).2.1).version = some 3 ∧
    ((StorageManager.initializeStorage noFail
        ⟨none, none, none, some 3, some 40⟩ 0 100).2.1).installDate = some 40 ∧
    (((StorageManager.initializeStorage noFail
          (StorageManager.initializeStorage noFail
            ⟨none, none, none, some 3, some 40⟩ 0 100).2.1 0 200).2.1).settings =
      ((StorageManager.initializeStorage noFail
          ⟨none, none, none, some 3, some 40⟩ 0 100).2.1).settings) :=
  ⟨(initialize_idempotent ⟨none, none, none, some 3, some 40⟩ 0 0 100 200
      (by decide)).1 3 (by rfl) (by decide),
   (initialize_idempotent ⟨none, none, none, some 3, some 40⟩ 0 0 100 200
      (by decide)).2.1 40 (by rfl) (by decide),
   (initialize_idempotent ⟨none, none, none, some 3, some 40⟩ 0 0 100 200
      (by decide)).2.2.2.2.2⟩

/-- C2: from any store holding an active session, with no storage failures,
`stopSession` returns the completed session (duration = clamped elapsed
time), and the owning domain's stored record afterwards has `totalTime`
equal to its prior value plus exactly that duration, a `sessions` list
extended by exactly that one returned session, and a daily bucket under the
completion-date key increased by exactly that duration. -/
theorem stopSession_folds_exactly (s : StorageState) (k : Nat) (now wallNow : Int)
    (today : String) (a : ActiveSession) (ha : s.activeSession = some a) :
    (TimeTracker.stopSession noFail s k now wallNow today).1 =
      .ok (some ⟨a.startTime, now, max 0 (now - a.startTime), a.tabId, a.windowId⟩) ∧
    ∃ dd' : DomainData,
      lookupKey (storedDomains
          (TimeTracker.stopSession noFail s k now wallNow today).2.1) a.domain =
        some dd' ∧
      dd'.totalTime = (priorDomainData s wallNow a.domain).totalTime +
        max 0 (now - a.startTime) ∧
      dd'.sessions = (priorDomainData s wallNow a.domain).sessions ++
        [⟨a.startTime, now, max 0 (now - a.startTime), a.tabId, a.windowId⟩] ∧
      lookupKey dd'.dailyStats today =
        some ((lookupKey (priorDomainData s wallNow a.domain).dailyStats today).getD 0 +
          max 0 (now - a.startTime)) := by
  unfold TimeTracker.stopSession TimeTracker.updateDomainData
    TimeTracker.calculateDuration StorageManager.getActiveSession
    StorageManager.getDomainData StorageManager.updateDomainData
    StorageManager.setActiveSession StorageManager.get StorageManager.set
  simp only [noFail, Bool.false_eq_true, if_false, ha, Option.getD_some]
  refine ⟨by trivial, ?_⟩
  refine ⟨mergeDomainData (priorDomainData s wallNow a.domain)
    ⟨some ((priorDomainData s wallNow a.domain).totalTime + max 0 (now - a.startTime)),
     some ((priorDomainData s wallNow a.domain).sessions ++
       [⟨a.startTime, now, max 0 (now - a.startTime), a.tabId, a.windowId⟩]),
     some (setKey (priorDomainData s wallNow a.domain).dailyStats today
       ((lookupKey (priorDomainData s wallNow a.domain).dailyStats today).getD 0 +
         max 0 (now - a.startTime))),
     some wallNow⟩ wallNow, ?_, ?_, ?_, ?_⟩
  · simp [storedDomains, applyPatch, SchemaPatch.empty, priorDomainData,
      lookupKey_setKey_self, mergeDomainData]
  · simp [mergeDomainData]
  · simp [mergeDomainData]
  · simp [mergeDomainData, lookupKey_setKey_self]

/-- Closed witness for C2: stopping a concrete session on a store with an
existing record for the domain. -/
theorem stopSession_folds_exactly_w :
    (TimeTracker.stopSession noFail
        ⟨some [("example.com", ⟨1000, [⟨0, 900, 900, 1, 1⟩], [("2024-01-01", 1000)], 5⟩)],
          some ⟨"example.com", 1000, 123, 1, false⟩, none, none, none⟩
        0 5000 6000 "2024-01-02").1 =
      .ok (some ⟨1000, 5000, max 0 ((5000 : Int) - 1000), 123, 1⟩) ∧
    ∃ dd' : DomainData,
      lookupKey (storedDomains
          (TimeTracker.stopSession noFail
            ⟨some [("example.com", ⟨1000, [⟨0, 900, 900, 1, 1⟩], [("2024-01-01", 1000)], 5⟩)],
              some ⟨"example.com", 1000, 123, 1, false⟩, none, none, none⟩
            0 5000 6000 "2024-01-02").2.1) "example.com" =
        some dd' ∧
      dd'.totalTime = (priorDomainData
          ⟨some [("example.com", ⟨1000, [⟨0, 900, 900, 1, 1⟩], [("2024-01-01", 1000)], 5⟩)],
            some ⟨"example.com", 1000, 123, 1, false⟩, none, none, none⟩
          6000 "example.com").totalTime + max 0 ((5000 : Int) - 1000) ∧
      dd'.sessions = (priorDomainData
          ⟨some [("example.com", ⟨1000, [⟨0, 900, 900, 1, 1⟩], [("2024-01-01", 1000)], 5⟩)],
            some ⟨"example.com", 1000, 123, 1, false⟩, none, none, none⟩
          6000 "example.com").sessions ++
        [⟨1000, 5000, max 0 ((5000 : Int) - 1000), 123, 1⟩] ∧
      lookupKey dd'.dailyStats "2024-01-02" =
        some ((lookupKey (priorDomainData
            ⟨some [("example.com", ⟨1000, [⟨0, 900, 900, 1, 1⟩], [("2024-01-01", 1000)], 5⟩)],
              some ⟨"example.com", 1000, 123, 1, false⟩, none, none, none⟩
            6000 "example.com").dailyStats "2024-01-02").getD 0 +
          max 0 ((5000 : Int) - 1000)) :=
  stopSession_folds_exactly
    ⟨some [("example.com", ⟨1000, [⟨0, 900, 900, 1, 1⟩], [("2024-01-01", 1000)], 5⟩)],
      some ⟨"example.com", 1000, 123, 1, false⟩, none, none, none⟩
    0 5000 6000 "2024-01-02" ⟨"example.com", 1000, 123, 1, false⟩ (by rfl)

/-- Schedule failing exactly the third raw access (index 2): in a
`stopSession` run started at counter 0 this is the read inside
`StorageManager.updateDomainData`, i.e. the fold step. -/
def thirdAccessFails : Sched := fun k => k == 2

/-- C10: if, while stopping an existing active session, the fold of the
completed session into the domain data fails (either the read or the write
inside `StorageManager.updateDomainData` throws), then `stopSession` raises
an error wrapped as "Failed to stop session" and the whole store — in
particular the persisted active-session slot — is left unchanged. -/
theorem stopSession_keeps_session_on_fold_failure (sched : Sched)
    (s : StorageState) (k : Nat) (now wallNow : Int) (today : String)
    (a : ActiveSession) (ha : s.activeSession = some a)
    (h0 : sched k = false)
    (hfold : sched (k + 2) = true ∨ (sched (k + 2) = false ∧ sched (k + 3) = true)) :
    (∃ e, (TimeTracker.stopSession sched s k now wallNow today).1 =
      .error (.wrap "Failed to stop session" e)) ∧
    (TimeTracker.stopSession sched s k now wallNow today).2.1 = s ∧
    (TimeTracker.stopSession sched s k now wallNow today).2.1.activeSession =
      some a := by
  unfold TimeTracker.stopSession TimeTracker.updateDomainData
    StorageManager.getActiveSession StorageManager.getDomainData
    StorageManager.updateDomainData StorageManager.get StorageManager.set
  rcases hfold with h2 | ⟨h2, h3⟩ <;>
    by_cases h1 : sched (k + 1) <;>
      simp [h0, h1, h2, ha] <;>
        simp [h3, ha]

/-- Closed witness for C10 at a concrete store and schedule. -/
theorem stopSession_keeps_session_on_fold_failure_w :
    (∃ e, (TimeTracker.stopSession thirdAccessFails
        ⟨none, some ⟨"example.com", 1000, 1, 1, false⟩, none, none, none⟩
        0 5000 6000 "2024-01-02").1 =
      .error (.wrap "Failed to stop session" e)) ∧
    (TimeTracker.stopSession thirdAccessFails
        ⟨none, some ⟨"example.com", 1000, 1, 1, false⟩, none, none, none⟩
        0 5000 6000 "2024-01-02").2.1 =
      ⟨none, some ⟨"example.com", 1000, 1, 1, false⟩, none, none, none⟩ ∧
    (TimeTracker.stopSession thirdAccessFails
        ⟨none, some ⟨"example.com", 1000, 1, 1, false⟩, none, none, none⟩
        0 5000 6000 "2024-01-02").2.1.activeSession =
      some ⟨"example.com", 1000, 1, 1, false⟩ :=
  stopSession_keeps_session_on_fold_failure thirdAccessFails
    ⟨none, some ⟨"example.com", 1000, 1, 1, false⟩, none, none, none⟩
    0 5000 6000 "2024-01-02" ⟨"example.com", 1000, 1, 1, false⟩
    (by rfl) (by rfl) (Or.inl (by rfl))

lemma jsSplit_no_sep_here (sep : List Char) (c : Char) (s : List Char)
    (h : ¬ sep.isPrefixOf (c :: s) = true) :
    jsSplit sep (c :: s) = consHead c (jsSplit sep s) := by
  simp [jsSplit, h]

lemma jsSplit_match_here (sep : List Char) (c : Char) (s : List Char)
    (h : sep.isPrefixOf (c :: s) = true) :
    jsSplit sep (c :: s) = [] :: jsSplit sep (s.drop (sep.length - 1)) := by
  simp [jsSplit, h]

lemma jsSplit_ne_nil (sep s : List Char) : jsSplit sep s ≠ [] := by
  match s with
  | [] => simp [jsSplit]
  | c :: rest =>
      by_cases h : sep.isPrefixOf (c :: rest) = true
      · rw [jsSplit_match_here _ _ _ h]
        simp
      · rw [jsSplit_no_sep_here _ _ _ h]
        cases jsSplit sep rest <;> simp [consHead]

/-- Splitting on "://" at the first separator boundary: if the text before
the separator contains no colon, the first component is exactly that text. -/
lemma jsSplit_sep_boundary (pre rest : List Char) (hpre : ':' ∉ pre) :
    jsSplit "://".data (pre ++ ':' :: '/' :: '/' :: rest) =
      pre :: jsSplit "://".data rest := by
  induction pre with
  | nil =>
      rw [List.nil_append, jsSplit_match_here _ _ _ (by simp [List.isPrefixOf])]
      rfl
  | cons c pre' ih =>
      have hc : c ≠ ':' := fun h => hpre (by simp [h])
      have hpre' : ':' ∉ pre' := fun h => hpre (List.mem_cons_of_mem _ h)
      have hnp : ¬ ("://".data.isPrefixOf
          (c :: (pre' ++ ':' :: '/' :: '/' :: rest))) = true := by
        simp [List.isPrefixOf]
        intro h
        exact absurd h.symm hc
      rw [List.cons_append, jsSplit_no_sep_here _ _ _ hnp, ih hpre']
      simp [consHead]

/-- When the separator occurs nowhere in the string, `split` returns the
whole string as its single component. -/
lemma jsSplit_of_no_occurrence (sep : List Char) :
    ∀ s : List Char, ¬ sep <:+: s → jsSplit sep s = [s] := by
  intro s
  induction s with
  | nil =>
      intro h
      simp [jsSplit]
  | cons c rest ih =>
      intro h
      have hp : ¬ (sep.isPrefixOf (c :: rest)) = true := by
        rw [List.isPrefixOf_iff_prefix]
        exact fun hpre => h hpre.isInfix
      rw [jsSplit_no_sep_here _ _ _ hp,
        ih (fun hinf => h (List.infix_cons hinf))]
      simp [consHead]

/-- A platform URL parser that always throws (irrelevant for pseudo-URLs,
which return before the parser is consulted). -/
def noHost : String → Option String := fun _ => none

/-- C6 counterexample: "about:blank" enters the pseudo-URL branch but
contains no "://" separator, so `extractDomain` returns "unknown" — not the
scheme token "about" the claim promises. -/
theorem extractDomain_about_blank_unknown :
    TimeTracker.extractDomain noHost "about:blank" = "unknown" ∧
    ("unknown" : String) ≠ "about" := by
  constructor
  · simp [TimeTracker.extractDomain, jsSplit, consHead]
  · decide

/-- C6 (amended): for inputs beginning "chrome://" or "moz-extension://",
`extractDomain` returns the scheme token itself; for inputs beginning
"about:" that contain no "://" separator anywhere (as real `about:` URLs do
not), it returns "unknown". -/
theorem extractDomain_pseudo_urls (parseHost : String → Option String)
    (url : String) :
    (∀ rest : List Char, url.data = "chrome://".data ++ rest →
      TimeTracker.extractDomain parseHost url = "chrome") ∧
    (∀ rest : List Char, url.data = "moz-extension://".data ++ rest →
      TimeTracker.extractDomain parseHost url = "moz-extension") ∧
    (∀ rest : List Char, url.data = "about:".data ++ rest →
      ¬ ("://".data <:+: url.data) →
      TimeTracker.extractDomain parseHost url = "unknown") := by
  refine ⟨?_, ?_, ?_⟩
  · intro rest hurl
    have hne : ¬ url = "" := by
      intro h
      subst h
      have := congrArg List.length hurl
      simp at this
    have hpre : List.isPrefixOf "chrome://".data url.data = true := by
      rw [hurl]
      exact List.isPrefixOf_iff_prefix.mpr (List.prefix_append _ _)
    have hsplit : jsSplit "://".data url.data =
        "chrome".data :: jsSplit "://".data rest := by
      rw [hurl]
      rw [show "chrome://".data ++ rest =
        "chrome".data ++ ':' :: '/' :: '/' :: rest from rfl]
      exact jsSplit_sep_boundary _ _ (by decide)
    have hlen : 0 < (jsSplit "://".data rest).length :=
      List.length_pos.mpr (jsSplit_ne_nil _ _)
    unfold TimeTracker.extractDomain
    rw [if_neg hne]
    simp only [hpre, Bool.true_or, if_true, hsplit]
    simp [jsSplit_ne_nil]
  · intro rest hurl
    have hne : ¬ url = "" := by
      intro h
      subst h
      have := congrArg List.length hurl
      simp at this
    have hpre : List.isPrefixOf "moz-extension://".data url.data = true := by
      rw [hurl]
      exact List.isPrefixOf_iff_prefix.mpr (List.prefix_append _ _)
    have hsplit : jsSplit "://".data url.data =
        "moz-extension".data :: jsSplit "://".data rest := by
      rw [hurl]
      rw [show "moz-extension://".data ++ rest =
        "moz-extension".data ++ ':' :: '/' :: '/' :: rest from rfl]
      exact jsSplit_sep_boundary _ _ (by decide)
    have hlen : 0 < (jsSplit "://".data rest).length :=
      List.length_pos.mpr (jsSplit_ne_nil _ _)
    unfold TimeTracker.extractDomain
    rw [if_neg hne]
    simp only [hpre, Bool.true_or, Bool.or_true, if_true, hsplit]
    simp [jsSplit_ne_nil]
  · intro rest hurl hnoinf
    have hne : ¬ url = "" := by
      intro h
      subst h
      have := congrArg List.length hurl
      simp at this
    have hpre : List.isPrefixOf "about:".data url.data = true := by
      rw [hurl]
      exact List.isPrefixOf_iff_prefix.mpr (List.prefix_append _ _)
    have hsplit : jsSplit "://".data url.data = [url.data] :=
      jsSplit_of_no_occurrence _ _ hnoinf
    unfold TimeTracker.extractDomain
    rw [if_neg hne]
    simp only [hpre, Bool.or_true, if_true, hsplit]
    simp

/-- Closed witness for the amended C6 at the spec's own sample inputs. -/
theorem extractDomain_pseudo_urls_w :
    TimeTracker.extractDomain noHost "chrome://extensions" = "chrome" ∧
    TimeTracker.extractDomain noHost "moz-extension://abcd/page.html" =
      "moz-extension" ∧
    TimeTracker.extractDomain noHost "about:config" = "unknown" :=
  ⟨(extractDomain_pseudo_urls noHost "chrome://extensions").1
      "extensions".data (by rfl),
   (extractDomain_pseudo_urls noHost "moz-extension://abcd/page.html").2.1
      "abcd/page.html".data (by rfl),
   (extractDomain_pseudo_urls noHost "about:config").2.2
      "config".data (by rfl) (by decide)⟩
